import Mathlib

/-!
Verification of the bootdev-filestore media-upload service.

The repository contains two revisions of the video pipeline:
* `src/unnamed/part_000` — the tolerance-band aspect classification,
  fast-start remux and presigned-URL response (designated by the spec as
  the algorithm to implement), and
* `src/handler_upload_video.go` — the superseded exact GCD-reduction
  classification (modelled below with the suffix `Prev`),
plus two revisions of the thumbnail handler
(`src/handler_upload_thumbnail.go`, modelled as `handlerUploadThumbnail`,
and `src/unnamed/part_001`, modelled as `handlerUploadThumbnailPrev`).

Strings are modelled as `List Char`; Go `float64` arithmetic in the
aspect classification is modelled by exact rational arithmetic; the
collaborators (uuid parsing, JWT validation, record store, object store,
external ffprobe/ffmpeg tools, presign issuer) are modelled as an
environment record holding each collaborator's outcome for the request.
-/

/-- Outcome of running the external inspection tool and parsing its
output (`getVideoAspectRatio`, lines 174-205 of part_000): the tool can
fail to run, its output can fail to parse, or it yields a list of
streams, each carrying a width and a height. -/
inductive FfprobeResult
  | runError
  | parseError
  | streams (l : List (Int × Int))
deriving DecidableEq

/-- Errors of the tolerance-band prober (part_000, lines 186-205). -/
inductive ProbeErr
  | invocation
  | parse
  | noStreams
deriving DecidableEq

/-- Errors of the superseded GCD prober (handler_upload_video.go). -/
inductive ProbeErrPrev
  | invocation
  | parse
  | invalidDims
deriving DecidableEq

/-- Observable outcome of the superseded GCD prober: it can panic
(indexing `Streams[0]` on an empty slice, handler_upload_video.go line
159), return an error, or return a classification. -/
inductive ProbeOutcome
  | panicked
  | failed (e : ProbeErrPrev)
  | returned (s : String)
deriving DecidableEq

/-- Aspect classification of part_000 lines 210-217: `sizeRatio :=
float64(width) / float64(height)`, classified by the two tolerance
bands.  The float computation is modelled by exact rational
arithmetic. -/
def classifyAspect (width height : Int) : String :=
  let r : ℚ := (width : ℚ) / (height : ℚ)
  if |r - 1.777| < 0.2 then "16:9"
  else if |r - 0.5625| < 0.2 then "9:16"
  else "other"

/-- `getVideoAspectRatio` of part_000 (lines 173-219): run ffprobe,
parse, reject zero streams, then classify the first stream's
dimensions. -/
def getVideoAspectRatio : FfprobeResult → Except ProbeErr String
  | .runError => .error .invocation
  | .parseError => .error .parse
  | .streams [] => .error .noStreams
  | .streams ((w, h) :: _) => .ok (classifyAspect w h)

/-- `gcd` of handler_upload_video.go lines 181-190, on the positive
domain the claims speak about: `if b != 0 { r := a % b; if r == 0
{ return b }; return gcd(b, r) }; return a`. -/
def gcdGo (a b : Nat) : Nat :=
  if h : b = 0 then a
  else
    let r := a % b
    if r = 0 then b else gcdGo b r
termination_by b
decreasing_by
  exact Nat.mod_lt a (Nat.pos_of_ne_zero h)

/-- `getVideoAspectRatio` of handler_upload_video.go (lines 134-179):
no zero-streams guard (`Streams[0]` panics on an empty slice), explicit
rejection of width/height below 1, then exact GCD reduction compared
with 16:9 / 9:16. -/
def getVideoAspectRatioPrev : FfprobeResult → ProbeOutcome
  | .runError => .failed .invocation
  | .parseError => .failed .parse
  | .streams [] => .panicked
  | .streams ((w, h) :: _) =>
    if w < 1 ∨ h < 1 then .failed .invalidDims
    else
      let g := gcdGo w.toNat h.toNat
      let wr := w.toNat / g
      let hr := h.toNat / g
      if wr = 16 ∧ hr = 9 then .returned ("16:9")
      else if wr = 9 ∧ hr = 16 then .returned ("9:16")
      else .returned ("other")

/-- Errors of `processVideoForFastStart` (part_000 lines 221-255):
a non-zero ffmpeg exit (with its captured stderr), or a failed
verification of the output file (stat error or empty file). -/
inductive RemuxErr
  | invocation (diag : List Char)
  | verification
deriving DecidableEq

/-- Argument list passed to the external remux tool (part_000 lines
224-235); the output path is the final argument. -/
def ffmpegArgs (p : List Char) : List (List Char) :=
  [("-i").data, p, ("-c").data, ("copy").data, ("-movflags").data,
   ("faststart").data, ("-f").data, ("mp4").data, p ++ (".processing").data]

/-- `processVideoForFastStart` of part_000 (lines 221-255): the ffmpeg
run outcome and the subsequent `os.Stat` of the output file are inputs;
`statSize` is `none` when the stat fails, otherwise the file size. -/
def processVideoForFastStart (p : List Char) (run : Except (List Char) Unit)
    (statSize : Option Nat) : Except RemuxErr (List Char) :=
  let newPath := p ++ (".processing").data
  match run with
  | .error diag => .error (.invocation diag)
  | .ok _ =>
    match statSize with
    | none => .error .verification
    | some size => if size < 1 then .error .verification else .ok newPath

/-- Character-level model of Go `strings.Split(s, ",")` for a
one-character separator. -/
def splitOn (sep : Char) : List Char → List (List Char)
  | [] => [[]]
  | c :: cs =>
    if c = sep then [] :: splitOn sep cs
    else
      match splitOn sep cs with
      | [] => [[c]]
      | p :: ps => (c :: p) :: ps

/-- The persisted storage-reference encoding of part_000 line 135:
`fmt.Sprintf("%s,%s", cfg.s3Bucket, fileKey)`. -/
def encodeRef (b k : List Char) : List Char := b ++ ',' :: k

/-- Decode failure of the reference decoder (part_000 line 159). -/
inductive DecodeErr
  | invalidFormat
deriving DecidableEq

/-- The decoding half of `dbVideoToSignedVideo` (part_000 lines
157-162): split on commas, fail when fewer than two parts, else take
parts 0 and 1 as bucket and key. -/
def decodeRef (s : List Char) : Except DecodeErr (List Char × List Char) :=
  match splitOn ',' s with
  | p0 :: p1 :: _ => .ok (p0, p1)
  | _ => .error .invalidFormat

/-- `mediaTypeToExt` of assets.go lines 52-58: split the media type on
a slash; exactly two parts yield `"." + subtype`, anything else yields
`".bin"`. -/
def mediaTypeToExt (mediaType : List Char) : List Char :=
  match splitOn '/' mediaType with
  | [_, sub] => '.' :: sub
  | _ => (".bin").data

/-- The base64 URL-safe alphabet used by Go `base64.URLEncoding`. -/
def b64Alphabet : List Char :=
  ("ABCDEFGHIJKLMNOPQRSTUVWXYZabcdefghijklmnopqrstuvwxyz0123456789-_").data

/-- Character of the URL-safe alphabet at a 6-bit index. -/
def b64Char (n : Nat) : Char := b64Alphabet.getD n 'A'

/-- Go `base64.URLEncoding.EncodeToString`: 3 input bytes become 4
alphabet characters, a 1- or 2-byte tail is padded with `=`.  Input
bytes are reduced mod 256. -/
def base64urlEncode : List Nat → List Char
  | b1 :: b2 :: b3 :: rest =>
    let x1 := b1 % 256
    let x2 := b2 % 256
    let x3 := b3 % 256
    b64Char (x1 / 4) :: b64Char (x1 % 4 * 16 + x2 / 16) ::
      b64Char (x2 % 16 * 4 + x3 / 64) :: b64Char (x3 % 64) ::
      base64urlEncode rest
  | [b1, b2] =>
    let x1 := b1 % 256
    let x2 := b2 % 256
    [b64Char (x1 / 4), b64Char (x1 % 4 * 16 + x2 / 16),
     b64Char (x2 % 16 * 4), '=']
  | [b1] =>
    let x1 := b1 % 256
    [b64Char (x1 / 4), b64Char (x1 % 4 * 16), '=', '=']
  | [] => []

/-- `getAssetPath` of assets.go lines 19-29, with the 32 random bytes
drawn by `rand.Read` made explicit as the argument `assetID`
(random-source exhaustion is fatal in the source and not modelled). -/
def getAssetPath (assetID : List Nat) (mediaType : List Char) : List Char :=
  base64urlEncode assetID ++ mediaTypeToExt mediaType

/-- Key prefix chosen from the aspect classification (part_000 lines
98-103). -/
def aspectPrefixKey (a : String) : List Char :=
  if a = "16:9" then ("landscape").data
  else if a = "9:16" then ("portrait").data
  else ("other").data

/-- The VideoAsset record as read from and written to the record store
(identity fields elided; only the fields the handlers touch). -/
structure Video where
  userID : Nat
  videoURL : Option (List Char)
  thumbnailURL : Option (List Char)
deriving DecidableEq

/-- One request's environment: the outcome each collaborator (uuid
parser, auth, record store, filesystem, external tools, object store,
presign issuer) would produce for this request, plus the configured
bucket and port and the random bytes drawn for the asset key. -/
structure Env where
  validID : Bool
  token : Option (List Char)
  jwtUser : Option Nat
  getVideo : Option Video
  formFileOk : Bool
  contentType : Option (List Char)
  createTempOk : Bool
  copyOk : Bool
  tmpName : List Char
  ffprobe : FfprobeResult
  ffmpegRun : Except (List Char) Unit
  remuxStatSize : Option Nat
  openProcessedOk : Bool
  s3Bucket : List Char
  assetID : List Nat
  putObjectOk : Bool
  updateVideoOk : Bool
  presignOk : Bool
  presign : List Char → List Char → List Char
  thumbContentType : Option (List Char)
  thumbContentTypeRaw : List Char
  thumbCreateOk : Bool
  thumbCopyOk : Bool
  thumbAssetPath : List Char
  port : List Char

/-- Observable outcome of one handler run: the HTTP status written,
which pipeline effects ran, the successful record-store write if any,
and the response body when it carries a video. `crashed` marks a nil
pointer dereference in the source. -/
structure HResult where
  status : Nat := 0
  staged : Bool := false
  probed : Bool := false
  remuxCalled : Bool := false
  putCalled : Bool := false
  updateCalled : Bool := false
  diskWrite : Bool := false
  dbWrite : Option Video := none
  response : Option Video := none
  crashed : Bool := false
deriving DecidableEq

/-- `dbVideoToSignedVideo` of part_000 lines 152-171: a missing URL or
a split with fewer than two parts fails; otherwise the presign issuer
is called on the first two parts and the video's URL field is replaced
by its output (`presignOk = false` models a presign failure). -/
def dbVideoToSignedVideo (e : Env) (video : Video) : Except Unit Video :=
  match video.videoURL with
  | none => .error ()
  | some u =>
    match splitOn ',' u with
    | p0 :: p1 :: _ =>
      if e.presignOk = false then .error ()
      else .ok { video with videoURL := some (e.presign p0 p1) }
    | _ => .error ()

/-- `handlerUploadVideo` of part_000 lines 26-150, as a step machine:
uuid parse, bearer token, JWT, record lookup, ownership, form file,
media type, scratch staging, probe, key computation, remux, open, S3
put, record update, presign, respond.  A failed `os.CreateTemp`
responds 500 before any byte is staged (the missing `return` after it
in the source only leads to a second failed write attempt on a nil
file).  Effect flags turn true at the step that performs them. -/
def handlerUploadVideo (e : Env) : HResult :=
  if e.validID = false then { status := 400 }
  else match e.token with
  | none => { status := 401 }
  | some _ =>
    match e.jwtUser with
    | none => { status := 401 }
    | some userID =>
      match e.getVideo with
      | none => { status := 500 }
      | some video =>
        if video.userID ≠ userID then { status := 401 }
        else if e.formFileOk = false then { status := 400 }
        else match e.contentType with
        | none => { status := 400 }
        | some mediaType =>
          if mediaType ≠ ("video/mp4").data then { status := 400 }
          else if e.createTempOk = false then { status := 500 }
          else if e.copyOk = false then { status := 500, staged := true }
          else match getVideoAspectRatio e.ffprobe with
          | .error _ => { status := 500, staged := true, probed := true }
          | .ok aspect =>
            let fileKey := aspectPrefixKey aspect ++ '/' ::
              getAssetPath e.assetID mediaType
            match processVideoForFastStart e.tmpName e.ffmpegRun
                e.remuxStatSize with
            | .error _ =>
              { status := 500, staged := true, probed := true,
                remuxCalled := true }
            | .ok _ =>
              if e.openProcessedOk = false then
                { status := 500, staged := true, probed := true,
                  remuxCalled := true }
              else if e.putObjectOk = false then
                { status := 500, staged := true, probed := true,
                  remuxCalled := true, putCalled := true }
              else
                let video' :=
                  { video with videoURL := some (encodeRef e.s3Bucket fileKey) }
                if e.updateVideoOk = false then
                  { status := 500, staged := true, probed := true,
                    remuxCalled := true, putCalled := true,
                    updateCalled := true }
                else match dbVideoToSignedVideo e video' with
                | .error _ =>
                  { status := 500, staged := true, probed := true,
                    remuxCalled := true, putCalled := true,
                    updateCalled := true, dbWrite := some video' }
                | .ok signed =>
                  { status := 200, staged := true, probed := true,
                    remuxCalled := true, putCalled := true,
                    updateCalled := true, dbWrite := some video',
                    response := some signed }

/-- The storage key the video handler computes for a request whose
media type passed the `video/mp4` guard: the classification prefix
joined with the generated asset path (part_000 lines 98-106). -/
def videoKey (e : Env) : List Char :=
  match getVideoAspectRatio e.ffprobe with
  | .ok a => aspectPrefixKey a ++ '/' :: getAssetPath e.assetID (("video/mp4").data)
  | .error _ => []

/-- `handlerUploadThumbnail` of handler_upload_thumbnail.go lines
15-105: uuid parse, token, JWT, form file, media type parse, the
jpeg/png whitelist, record lookup, ownership, disk write, old-URL
dereference (a nil `ThumbnailURL` panics at line 83), record update,
best-effort removal of the old file (no observable effect modelled),
respond. -/
def handlerUploadThumbnail (e : Env) : HResult :=
  if e.validID = false then { status := 400 }
  else match e.token with
  | none => { status := 401 }
  | some _ =>
    match e.jwtUser with
    | none => { status := 401 }
    | some userID =>
      if e.formFileOk = false then { status := 400 }
      else match e.thumbContentType with
      | none => { status := 400 }
      | some mediaType =>
        if mediaType ≠ ("image/jpeg").data ∧ mediaType ≠ ("image/png").data then
          { status := 400 }
        else match e.getVideo with
        | none => { status := 500 }
        | some video =>
          if video.userID ≠ userID then { status := 401 }
          else if e.thumbCreateOk = false then { status := 500 }
          else if e.thumbCopyOk = false then { status := 500, diskWrite := true }
          else
            let turl := ("http://localhost:").data ++ e.port ++
              ("/assets/").data ++ getAssetPath e.assetID mediaType
            match video.thumbnailURL with
            | none => { status := 500, diskWrite := true, crashed := true }
            | some _ =>
              let video' := { video with thumbnailURL := some turl }
              if e.updateVideoOk = false then
                { status := 500, diskWrite := true, updateCalled := true }
              else
                { status := 200, diskWrite := true, updateCalled := true,
                  dbWrite := some video', response := some video' }

/-- `handlerUploadThumbnail` of part_001 lines 13-86 (the earlier
revision): only a non-empty Content-Type is required (no jpeg/png
whitelist), the asset path comes from a videoID-based `getAssetPath`
revision not present under src/ (abstracted as `thumbAssetPath`), and
a failed record update is answered with status 400. -/
def handlerUploadThumbnailPrev (e : Env) : HResult :=
  if e.validID = false then { status := 400 }
  else match e.token with
  | none => { status := 401 }
  | some _ =>
    match e.jwtUser with
    | none => { status := 401 }
    | some userID =>
      if e.formFileOk = false then { status := 400 }
      else if e.thumbContentTypeRaw = ([] : List Char) then { status := 400 }
      else match e.getVideo with
      | none => { status := 500 }
      | some video =>
        if video.userID ≠ userID then { status := 401 }
        else if e.thumbCreateOk = false then { status := 500 }
        else if e.thumbCopyOk = false then { status := 500, diskWrite := true }
        else
          let turl := ("http://localhost:").data ++ e.port ++
            ("/assets/").data ++ e.thumbAssetPath
          let video' := { video with thumbnailURL := some turl }
          if e.updateVideoOk = false then
            { status := 400, diskWrite := true, updateCalled := true }
          else
            { status := 200, diskWrite := true, updateCalled := true,
              dbWrite := some video', response := some video' }

/-- A video record owned by user 1, used to exercise the handlers on
concrete requests. -/
def videoOwned : Video :=
  { userID := 1, videoURL := none, thumbnailURL := some (("old.png").data) }

/-- A video record owned by user 2 (not the authenticated user 1). -/
def videoOther : Video :=
  { userID := 2, videoURL := none, thumbnailURL := some (("old.png").data) }

/-- A request environment in which every collaborator succeeds and the
probed stream is 16x9. -/
def envAllOk : Env :=
  { validID := true
    token := some (("tok").data)
    jwtUser := some 1
    getVideo := some videoOwned
    formFileOk := true
    contentType := some (("video/mp4").data)
    createTempOk := true
    copyOk := true
    tmpName := ("tmp.mp4").data
    ffprobe := .streams [((16 : Int), (9 : Int))]
    ffmpegRun := .ok ()
    remuxStatSize := some 5
    openProcessedOk := true
    s3Bucket := ("bkt").data
    assetID := []
    putObjectOk := true
    updateVideoOk := true
    presignOk := true
    presign := fun b k => ("https://").data ++ b ++ '/' :: k
    thumbContentType := some (("image/png").data)
    thumbContentTypeRaw := ("image/png").data
    thumbCreateOk := true
    thumbCopyOk := true
    thumbAssetPath := ("x.png").data
    port := ("8080").data }

/-- The all-ok environment, but the target video belongs to another
user. -/
def envOwnerMismatch : Env := { envAllOk with getVideo := some videoOther }

/-- The all-ok environment, but the thumbnail's declared media type is
image/gif. -/
def envGifThumb : Env :=
  { envAllOk with thumbContentType := some (("image/gif").data) }

/-- The all-ok environment, but the object-store write fails. -/
def envPutFailed : Env := { envAllOk with putObjectOk := false }

lemma splitOn_ne_nil (sep : Char) (l : List Char) : splitOn sep l ≠ [] := by
  induction l with
  | nil => simp [splitOn]
  | cons c cs ih =>
    simp only [splitOn]
    split
    · simp
    · split
      · simp
      · simp

lemma splitOn_no_sep (sep : Char) (l : List Char) (h : sep ∉ l) :
    splitOn sep l = [l] := by
  induction l with
  | nil => rfl
  | cons c cs ih =>
    have hc : ¬ c = sep := fun hcs => h (hcs ▸ List.mem_cons_self c cs)
    have hcs : sep ∉ cs := fun hm => h (List.mem_cons_of_mem c hm)
    simp only [splitOn, if_neg hc, ih hcs]

lemma splitOn_append (sep : Char) (b k : List Char) (hb : sep ∉ b) :
    splitOn sep (b ++ sep :: k) = b :: splitOn sep k := by
  induction b with
  | nil => simp [splitOn]
  | cons c cs ih =>
    have hc : ¬ c = sep := fun hcs => hb (hcs ▸ List.mem_cons_self c cs)
    have hcs : sep ∉ cs := fun hm => hb (List.mem_cons_of_mem c hm)
    simp only [List.cons_append, splitOn, if_neg hc, List.append_eq, ih hcs]

lemma decodeRef_encodeRef (b k : List Char) (hb : ',' ∉ b) (hk : ',' ∉ k) :
    decodeRef (encodeRef b k) = .ok (b, k) := by
  simp only [decodeRef, encodeRef, splitOn_append ',' b k hb,
    splitOn_no_sep ',' k hk]

lemma getD_ne_comma : ∀ (l : List Char) (n : Nat) (d : Char),
    (∀ c ∈ l, c ≠ ',') → d ≠ ',' → l.getD n d ≠ ','
  | [], n, d, _, hd => by simpa [List.getD] using hd
  | c :: cs, 0, d, hl, _ => by
    simpa [List.getD] using hl c (List.mem_cons_self c cs)
  | c :: cs, n + 1, d, hl, hd => by
    simpa [List.getD] using
      getD_ne_comma cs n d (fun x hx => hl x (List.mem_cons_of_mem c hx)) hd

lemma b64Char_ne_comma (n : Nat) : b64Char n ≠ ',' :=
  getD_ne_comma b64Alphabet n 'A' (by decide) (by decide)

lemma base64urlEncode_no_comma : ∀ bs : List Nat, ',' ∉ base64urlEncode bs
  | [] => by simp [base64urlEncode]
  | [b1] => by
    simp only [base64urlEncode, List.mem_cons, List.not_mem_nil, or_false]
    push_neg
    exact ⟨fun h => b64Char_ne_comma _ h.symm,
      fun h => b64Char_ne_comma _ h.symm, by decide, by decide⟩
  | [b1, b2] => by
    simp only [base64urlEncode, List.mem_cons, List.not_mem_nil, or_false]
    push_neg
    exact ⟨fun h => b64Char_ne_comma _ h.symm,
      fun h => b64Char_ne_comma _ h.symm,
      fun h => b64Char_ne_comma _ h.symm, by decide⟩
  | b1 :: b2 :: b3 :: rest => by
    have ih := base64urlEncode_no_comma rest
    simp only [base64urlEncode, List.mem_cons]
    push_neg
    exact ⟨fun h => b64Char_ne_comma _ h.symm,
      fun h => b64Char_ne_comma _ h.symm,
      fun h => b64Char_ne_comma _ h.symm,
      fun h => b64Char_ne_comma _ h.symm, ih⟩

lemma key_no_comma (a : String) (bs : List Nat) :
    ',' ∉ aspectPrefixKey a ++ '/' :: getAssetPath bs (("video/mp4").data) := by
  intro hmem
  rcases List.mem_append.mp hmem with h | h
  · revert h
    unfold aspectPrefixKey
    split
    · decide
    · split
      · decide
      · decide
  · rcases List.mem_cons.mp h with h | h
    · exact absurd h (by decide)
    · unfold getAssetPath at h
      rcases List.mem_append.mp h with h | h
      · exact base64urlEncode_no_comma bs h
      · revert h
        decide

lemma gcdGo_eq_gcd : ∀ b a : Nat, gcdGo a b = Nat.gcd a b := by
  intro b
  induction b using Nat.strong_induction_on with
  | _ b ih =>
    intro a
    unfold gcdGo
    split
    · rename_i hb
      simp [hb, Nat.gcd_zero_right]
    · rename_i hb
      by_cases hr : a % b = 0
      · simp only [hr, if_pos rfl]
        exact (Nat.gcd_eq_right (Nat.dvd_of_mod_eq_zero hr)).symm
      · simp only [if_neg hr]
        rw [ih (a % b) (Nat.mod_lt a (Nat.pos_of_ne_zero hb)) b]
        rw [Nat.gcd_comm a b, Nat.gcd_rec b a, Nat.gcd_comm (a % b) b]

lemma bands_disjoint (r : ℚ) (h1 : |r - 1.777| < 0.2) :
    ¬ |r - 0.5625| < 0.2 := by
  intro h2
  rw [abs_lt] at h1 h2
  have := h1.1
  have := h2.2
  norm_num at *
  linarith

lemma dbVideoToSignedVideo_encode (e : Env) (v : Video) (b k : List Char)
    (hb : ',' ∉ b) (hk : ',' ∉ k) (hurl : v.videoURL = some (encodeRef b k)) :
    dbVideoToSignedVideo e v =
      if e.presignOk = false then .error ()
      else .ok { v with videoURL := some (e.presign b k) } := by
  unfold dbVideoToSignedVideo
  rw [hurl]
  simp only [encodeRef, splitOn_append ',' b k hb, splitOn_no_sep ',' k hk]

lemma classify_16_9 : classifyAspect 16 9 = "16:9" := by
  unfold classifyAspect
  rw [if_pos]
  rw [abs_lt]
  constructor <;> norm_num

lemma envAllOk_status : (handlerUploadVideo envAllOk).status = 200 := by
  simp [handlerUploadVideo, envAllOk, videoOwned, getVideoAspectRatio,
    classify_16_9, processVideoForFastStart, dbVideoToSignedVideo,
    aspectPrefixKey, encodeRef, getAssetPath, base64urlEncode,
    mediaTypeToExt, splitOn]

lemma envPutFailed_putCalled :
    (handlerUploadVideo envPutFailed).putCalled = true := by
  simp [handlerUploadVideo, envPutFailed, envAllOk, videoOwned,
    getVideoAspectRatio, classify_16_9, processVideoForFastStart]

/-- C1: for every stream dimension pair with a positive height, the
tolerance-band classification (part_000) returns 16:9 exactly when the
ratio lies within 0.2 of 1.777, returns 9:16 exactly when it lies
within 0.2 of 0.5625, and returns other exactly in the remaining
cases. -/
theorem classify_bands (w h : Int) (rest : List (Int × Int)) (hpos : 0 < h) :
    ( getVideoAspectRatio (.streams ((w, h) :: rest)) = .ok ("16:9") ↔
      |(w : ℚ) / (h : ℚ) - 1.777| < 0.2) ∧
    ( getVideoAspectRatio (.streams ((w, h) :: rest)) = .ok ("9:16") ↔
      |(w : ℚ) / (h : ℚ) - 0.5625| < 0.2) ∧
    ( getVideoAspectRatio (.streams ((w, h) :: rest)) = .ok ("other") ↔
      ¬ |(w : ℚ) / (h : ℚ) - 1.777| < 0.2 ∧
      ¬ |(w : ℚ) / (h : ℚ) - 0.5625| < 0.2) := by
  simp only [getVideoAspectRatio, classifyAspect]
  split_ifs with h1 h2
  · have hd := bands_disjoint _ h1
    simp [h1, hd]
  · simp [h1, h2]
  · simp [h1, h2]

/-- C1 witness: the bands theorem instantiated at 1920x1080. -/
theorem classify_bands_witness :
    (0 : Int) < 1080 ∧
    (( getVideoAspectRatio (.streams [((1920 : Int), (1080 : Int))]) = .ok ("16:9") ↔
      |((1920 : Int) : ℚ) / ((1080 : Int) : ℚ) - 1.777| < 0.2) ∧
     ( getVideoAspectRatio (.streams [((1920 : Int), (1080 : Int))]) = .ok ("9:16") ↔
      |((1920 : Int) : ℚ) / ((1080 : Int) : ℚ) - 0.5625| < 0.2) ∧
     ( getVideoAspectRatio (.streams [((1920 : Int), (1080 : Int))]) = .ok ("other") ↔
      ¬ |((1920 : Int) : ℚ) / ((1080 : Int) : ℚ) - 1.777| < 0.2 ∧
      ¬ |((1920 : Int) : ℚ) / ((1080 : Int) : ℚ) - 0.5625| < 0.2)) :=
  ⟨by decide, classify_bands 1920 1080 [] (by decide)⟩

/-- C2: when the authenticated user differs from the video's owner, the
video handler and both thumbnail-handler revisions answer 401 (never
200), stage no bytes, write nothing to disk, and never probe, remux,
store or update the record. -/
theorem handlerUpload_owner_mismatch (e : Env) (t : List Char) (uid : Nat)
    (video : Video) (h1 : e.validID = true) (h2 : e.token = some t)
    (h3 : e.jwtUser = some uid) (h4 : e.getVideo = some video)
    (h5 : video.userID ≠ uid) :
    ((handlerUploadVideo e).status = 401 ∧
     (handlerUploadVideo e).status ≠ 200 ∧
     (handlerUploadVideo e).staged = false ∧
     (handlerUploadVideo e).probed = false ∧
     (handlerUploadVideo e).remuxCalled = false ∧
     (handlerUploadVideo e).putCalled = false ∧
     (handlerUploadVideo e).updateCalled = false ∧
     (handlerUploadVideo e).dbWrite = none) ∧
    (e.formFileOk = true → ∀ mt, e.thumbContentType = some mt →
      (mt = ("image/jpeg").data ∨ mt = ("image/png").data) →
      (handlerUploadThumbnail e).status = 401 ∧
      (handlerUploadThumbnail e).diskWrite = false ∧
      (handlerUploadThumbnail e).updateCalled = false ∧
      (handlerUploadThumbnail e).dbWrite = none) ∧
    (e.formFileOk = true → e.thumbContentTypeRaw ≠ [] →
      (handlerUploadThumbnailPrev e).status = 401 ∧
      (handlerUploadThumbnailPrev e).diskWrite = false ∧
      (handlerUploadThumbnailPrev e).updateCalled = false ∧
      (handlerUploadThumbnailPrev e).dbWrite = none) := by
  refine ⟨?_, ?_, ?_⟩
  · simp [handlerUploadVideo, h1, h2, h3, h4, h5]
  · intro hf mt hmt hok
    rcases hok with h | h <;>
      simp [handlerUploadThumbnail, h1, h2, h3, h4, h5, hf, hmt, h]
  · intro hf hraw
    simp [handlerUploadThumbnailPrev, h1, h2, h3, h4, h5, hf, hraw]

/-- C2 witness: user 1 uploading to user 2's video is rejected with 401
by all three handler models and nothing is staged or persisted. -/
theorem handlerUpload_owner_mismatch_witness :
    videoOther.userID ≠ 1 ∧
    (handlerUploadVideo envOwnerMismatch).status = 401 ∧
    (handlerUploadVideo envOwnerMismatch).staged = false ∧
    (handlerUploadVideo envOwnerMismatch).dbWrite = none ∧
    (handlerUploadThumbnail envOwnerMismatch).status = 401 ∧
    (handlerUploadThumbnail envOwnerMismatch).diskWrite = false ∧
    (handlerUploadThumbnailPrev envOwnerMismatch).status = 401 :=
  have h := handlerUpload_owner_mismatch envOwnerMismatch (("tok").data) 1
    videoOther rfl rfl rfl rfl (by decide)
  ⟨by decide, h.1.1, h.1.2.2.1, h.1.2.2.2.2.2.2.2,
   (h.2.1 rfl (("image/png").data) rfl (Or.inr rfl)).1,
   (h.2.1 rfl (("image/png").data) rfl (Or.inr rfl)).2.1,
   (h.2.2 rfl (by decide)).1⟩

/-- C3: encoding a storage reference as bucket-comma-key and decoding
it yields the original pair whenever neither side contains a comma; the
keys the program produces (classification prefix, slash, base64
URL-safe random id, mp4 extension) never contain a comma; and decoding
any string that splits into fewer than two parts fails with the format
error. -/
theorem storageRef_roundtrip :
    (∀ b k : List Char, ',' ∉ b → ',' ∉ k →
      decodeRef (encodeRef b k) = .ok (b, k)) ∧
    (∀ (a : String) (bs : List Nat),
      ',' ∉ aspectPrefixKey a ++ '/' :: getAssetPath bs (("video/mp4").data)) ∧
    (∀ s : List Char, (splitOn ',' s).length < 2 →
      decodeRef s = .error .invalidFormat) := by
  refine ⟨decodeRef_encodeRef, key_no_comma, ?_⟩
  intro s hlen
  unfold decodeRef
  cases hsp : splitOn ',' s with
  | nil => rfl
  | cons p ps =>
    cases ps with
    | nil => rfl
    | cons q qs =>
      rw [hsp] at hlen
      exact absurd hlen (by simp)

/-- C3 witness: the round trip evaluated on a concrete bucket and
key. -/
theorem storageRef_roundtrip_witness :
    ',' ∉ ("bkt").data ∧ ',' ∉ ("landscape/abc.mp4").data ∧
    decodeRef (encodeRef (("bkt").data) (("landscape/abc.mp4").data)) =
      .ok ((("bkt").data), (("landscape/abc.mp4").data)) :=
  ⟨by decide, by decide,
   storageRef_roundtrip.1 (("bkt").data) (("landscape/abc.mp4").data)
     (by decide) (by decide)⟩

/-- C4: whenever the video handler answers 200 (and the configured
bucket is comma-free), the persisted record holds the raw
bucket-comma-key reference, and the response body holds the same record
with that field replaced by the presign issuer's output for exactly
that bucket and key, produced at response time by decoding the stored
reference. -/
theorem video_response_presigned (e : Env) (hb : ',' ∉ e.s3Bucket)
    (hs : (handlerUploadVideo e).status = 200) :
    ∃ v : Video,
      (handlerUploadVideo e).dbWrite = some v ∧
      v.videoURL = some (encodeRef e.s3Bucket (videoKey e)) ∧
      dbVideoToSignedVideo e v =
        .ok { v with videoURL := some (e.presign e.s3Bucket (videoKey e)) } ∧
      (handlerUploadVideo e).response =
        some { v with videoURL := some (e.presign e.s3Bucket (videoKey e)) } := by
  unfold handlerUploadVideo at hs
  repeat' split at hs
  all_goals simp_all
  rename_i a1 a2 a3 uid a5 video a7 mt a9 aspect a11 fastPath hvalid htok hjwt
    hget hown hform hct hmt hctmp hcopy hprobe hfast hopen hput hupd
  have hkey : videoKey e = aspectPrefixKey aspect ++
      '/' :: getAssetPath e.assetID (("video/mp4").data) := by
    simp [videoKey, hprobe]
  have hkc := key_no_comma aspect e.assetID
  have henc := dbVideoToSignedVideo_encode e
    { userID := uid,
      videoURL := some (encodeRef e.s3Bucket (aspectPrefixKey aspect ++
        '/' :: getAssetPath e.assetID (("video/mp4").data))),
      thumbnailURL := video.thumbnailURL }
    e.s3Bucket
    (aspectPrefixKey aspect ++ '/' :: getAssetPath e.assetID (("video/mp4").data))
    hb hkc rfl
  cases hsig : dbVideoToSignedVideo e
      { userID := uid,
        videoURL := some (encodeRef e.s3Bucket (aspectPrefixKey aspect ++
          '/' :: getAssetPath e.assetID (("video/mp4").data))),
        thumbnailURL := video.thumbnailURL } with
  | error err => simp [hsig] at hs
  | ok signed =>
    cases hp : e.presignOk with
    | false =>
      rw [hp] at henc
      simp at henc
      rw [hsig] at henc
      exact absurd henc (by simp)
    | true =>
      rw [hp] at henc
      simp at henc
      rw [hsig] at henc
      have hsigned := (Except.ok.injEq _ _).mp henc
      refine
        ⟨{ userID := uid,
           videoURL := some (encodeRef e.s3Bucket (aspectPrefixKey aspect ++
             '/' :: getAssetPath e.assetID (("video/mp4").data))),
           thumbnailURL := video.thumbnailURL }, ?_, ?_, ?_, ?_⟩
      · simp [handlerUploadVideo, hvalid, htok, hjwt, hget, hown, hform, hct,
          hctmp, hcopy, hprobe, hfast, hopen, hput, hupd, hsig]
      · rw [hkey]
      · rw [hkey, hsig, ← hsigned]
      · simp [handlerUploadVideo, hvalid, htok, hjwt, hget, hown, hform, hct,
          hctmp, hcopy, hprobe, hfast, hopen, hput, hupd, hsig, hkey,
          ← hsigned]

/-- C4 witness: the presigning theorem applied to the all-ok
environment, whose run answers 200. -/
theorem video_response_presigned_witness :
    ',' ∉ envAllOk.s3Bucket ∧ (handlerUploadVideo envAllOk).status = 200 ∧
    (∃ v : Video,
      (handlerUploadVideo envAllOk).dbWrite = some v ∧
      v.videoURL = some (encodeRef envAllOk.s3Bucket (videoKey envAllOk)) ∧
      dbVideoToSignedVideo envAllOk v =
        .ok { v with
              videoURL := some (envAllOk.presign envAllOk.s3Bucket (videoKey envAllOk)) } ∧
      (handlerUploadVideo envAllOk).response =
        some { v with
               videoURL := some (envAllOk.presign envAllOk.s3Bucket (videoKey envAllOk)) }) :=
  ⟨by decide, envAllOk_status,
   video_response_presigned envAllOk (by decide) envAllOk_status⟩

/-- C5: a thumbnail upload whose declared media type fails to parse or
is anything other than image/jpeg or image/png is answered 400 before
any disk write and before the video record is touched. -/
theorem thumbnail_media_rejected (e : Env) (t : List Char) (uid : Nat)
    (h1 : e.validID = true) (h2 : e.token = some t) (h3 : e.jwtUser = some uid)
    (h4 : e.formFileOk = true)
    (h5 : e.thumbContentType = none ∨ ∃ mt, e.thumbContentType = some mt ∧
      mt ≠ ("image/jpeg").data ∧ mt ≠ ("image/png").data) :
    (handlerUploadThumbnail e).status = 400 ∧
    (handlerUploadThumbnail e).diskWrite = false ∧
    (handlerUploadThumbnail e).updateCalled = false ∧
    (handlerUploadThumbnail e).dbWrite = none ∧
    (handlerUploadThumbnail e).response = none := by
  rcases h5 with h5 | ⟨mt, hmt, hj, hp⟩
  · simp [handlerUploadThumbnail, h1, h2, h3, h4, h5]
  · simp [handlerUploadThumbnail, h1, h2, h3, h4, hmt, hj, hp]

/-- C5 witness: an image/gif thumbnail upload is rejected with 400 and
nothing is written. -/
theorem thumbnail_media_rejected_witness :
    envGifThumb.thumbContentType = some (("image/gif").data) ∧
    (handlerUploadThumbnail envGifThumb).status = 400 ∧
    (handlerUploadThumbnail envGifThumb).diskWrite = false ∧
    (handlerUploadThumbnail envGifThumb).updateCalled = false ∧
    (handlerUploadThumbnail envGifThumb).dbWrite = none ∧
    (handlerUploadThumbnail envGifThumb).response = none :=
  have h := thumbnail_media_rejected envGifThumb (("tok").data) 1 rfl rfl rfl rfl
    (Or.inr ⟨("image/gif").data, rfl, by decide, by decide⟩)
  ⟨rfl, h.1, h.2.1, h.2.2.1, h.2.2.2.1, h.2.2.2.2⟩

/-- C6: if the object-store write was attempted and failed, the video
handler answers 500 and never calls the record update, leaving the
record write absent; conversely the record update only ever runs after
a successful object-store write. -/
theorem putObject_failure_atomic (e : Env) :
    ((handlerUploadVideo e).putCalled = true → e.putObjectOk = false →
      (handlerUploadVideo e).status = 500 ∧
      (handlerUploadVideo e).updateCalled = false ∧
      (handlerUploadVideo e).dbWrite = none) ∧
    ((handlerUploadVideo e).updateCalled = true → e.putObjectOk = true) := by
  unfold handlerUploadVideo
  repeat' split
  all_goals simp_all

/-- C6 witness: a run that reaches the object-store write and fails
there answers 500 with the record untouched. -/
theorem putObject_failure_atomic_witness :
    (handlerUploadVideo envPutFailed).putCalled = true ∧
    envPutFailed.putObjectOk = false ∧
    (handlerUploadVideo envPutFailed).status = 500 ∧
    (handlerUploadVideo envPutFailed).updateCalled = false ∧
    (handlerUploadVideo envPutFailed).dbWrite = none :=
  have h := (putObject_failure_atomic envPutFailed).1 envPutFailed_putCalled rfl
  ⟨envPutFailed_putCalled, rfl, h.1, h.2.1, h.2.2⟩

/-- C7: the tolerance-band prober returns the no-streams error on
parsed output with zero streams, and on any non-empty stream list it
returns a classification, so the first-stream access is guarded. -/
theorem probe_no_streams_guarded :
    getVideoAspectRatio (.streams []) = .error .noStreams ∧
    (∀ (w h : Int) (rest : List (Int × Int)), ∃ a : String,
      getVideoAspectRatio (.streams ((w, h) :: rest)) = .ok a) :=
  ⟨rfl, fun w h _ => ⟨classifyAspect w h, rfl⟩⟩

/-- C8 counterexample: the tolerance-band computation (part_000, the
revision the spec designates) does not reject nonpositive dimensions:
at width -16 and height -9 it returns the 16:9 classification instead
of a validation error. -/
theorem classify_negative_counterexample :
    getVideoAspectRatio (.streams [((-16 : Int), (-9 : Int))]) = .ok ("16:9") := by
  simp only [getVideoAspectRatio]
  unfold classifyAspect
  rw [if_pos]
  rw [abs_lt]
  constructor <;> norm_num

/-- C8 (amended): in the GCD revision (handler_upload_video.go), every
probed stream with width at most 0 or height at most 0 is rejected with
the invalid-dimensions validation error before any ratio computation. -/
theorem aspect_invalid_dims_rejected (w h : Int) (rest : List (Int × Int))
    (hwh : w ≤ 0 ∨ h ≤ 0) :
    getVideoAspectRatioPrev (.streams ((w, h) :: rest)) = .failed .invalidDims := by
  have hlt : w < 1 ∨ h < 1 := by omega
  simp [getVideoAspectRatioPrev, hlt]

/-- C8 witness: a zero-width stream is rejected by the GCD revision. -/
theorem aspect_invalid_dims_rejected_witness :
    ((0 : Int) ≤ 0 ∨ (1080 : Int) ≤ 0) ∧
    getVideoAspectRatioPrev (.streams [((0 : Int), (1080 : Int))]) =
      .failed .invalidDims :=
  ⟨Or.inl (by decide), aspect_invalid_dims_rejected 0 1080 [] (Or.inl (by decide))⟩

/-- C9: the remux operation targets the sibling path obtained by
appending .processing to the input path (the final tool argument) and
returns that path on success; a non-zero tool exit fails with an
invocation error carrying the captured diagnostics, and a failed stat
or an empty output file fails with the verification error. -/
theorem fastStart_spec (p diag : List Char) (st : Option Nat) (sz : Nat) :
    processVideoForFastStart p (.error diag) st = .error (.invocation diag) ∧
    processVideoForFastStart p (.ok ()) none = .error .verification ∧
    processVideoForFastStart p (.ok ()) (some 0) = .error .verification ∧
    (0 < sz → processVideoForFastStart p (.ok ()) (some sz) =
      .ok (p ++ (".processing").data)) ∧
    List.getLast? (ffmpegArgs p) = some (p ++ (".processing").data) := by
  refine ⟨rfl, rfl, rfl, ?_, rfl⟩
  intro hsz
  dsimp only [processVideoForFastStart]
  rw [if_neg (by omega : ¬ sz < 1)]

/-- C9 witness: the remux succeeds on a five-byte output file and
returns the .processing sibling path. -/
theorem fastStart_spec_witness :
    0 < 5 ∧ processVideoForFastStart (("v.mp4").data) (.ok ()) (some 5) =
      .ok ((("v.mp4").data) ++ (".processing").data) :=
  ⟨by decide, (fastStart_spec (("v.mp4").data) ([]) none 5).2.2.2.1 (by decide)⟩

/-- C10: on positive inputs the recursive gcd function terminates (it
is total by construction) and returns the greatest common divisor:
positive, dividing both arguments, divisible by every common divisor,
and making the ratio reduction by division exact. -/
theorem gcd_correct (a b : Nat) (ha : 0 < a) (hb : 0 < b) :
    0 < gcdGo a b ∧ gcdGo a b ∣ a ∧ gcdGo a b ∣ b ∧
    (∀ d : Nat, d ∣ a → d ∣ b → d ∣ gcdGo a b) ∧
    a / gcdGo a b * gcdGo a b = a ∧ b / gcdGo a b * gcdGo a b = b := by
  rw [gcdGo_eq_gcd]
  exact ⟨Nat.gcd_pos_of_pos_left b ha, Nat.gcd_dvd_left a b,
    Nat.gcd_dvd_right a b, fun d hda hdb => Nat.dvd_gcd hda hdb,
    Nat.div_mul_cancel (Nat.gcd_dvd_left a b),
    Nat.div_mul_cancel (Nat.gcd_dvd_right a b)⟩

/-- C10 witness: the gcd properties evaluated at 1920x1080. -/
theorem gcd_correct_witness :
    0 < 1920 ∧ 0 < 1080 ∧
    (0 < gcdGo 1920 1080 ∧ gcdGo 1920 1080 ∣ 1920 ∧ gcdGo 1920 1080 ∣ 1080 ∧
     (∀ d : Nat, d ∣ 1920 → d ∣ 1080 → d ∣ gcdGo 1920 1080) ∧
     1920 / gcdGo 1920 1080 * gcdGo 1920 1080 = 1920 ∧
     1080 / gcdGo 1920 1080 * gcdGo 1920 1080 = 1080) :=
  ⟨by decide, by decide, gcd_correct 1920 1080 (by decide) (by decide)⟩
